import Mathlib

/-!
Verification of the Mullvad relay matcher.

This file gives a shallow embedding of the relay matching and endpoint
construction engine of the Mullvad VPN app:
  - mullvad-relay-selector/src/matcher.rs
  - mullvad-types/src/relay_list.rs
and proves properties of the matching predicates, the tunnel-matching
strategies, the combinator for "any protocol" requests, and the WireGuard
port selection algorithm.

Modelling notes:
  - Rust machine integers (u16, u64) are embedded as Nat with explicit
    modular reductions where the source arithmetic can wrap.  The
    range-size closure in get_port_for_wireguard_relay computes
    (1 + high - low) in u16 before widening to u64; we model the wrapping
    (release build) semantics in get_port_amount, and separately model the
    overflow-checked (debug build) semantics in get_port_amount_checked.
  - The random draw rand thread_rng gen_range(0, port_amount) is embedded
    by passing the drawn index explicitly as a parameter; the source
    guarantees the drawn index lies in the interval from 0 inclusive to
    port_amount exclusive.
  - Fatal branches in the source (the Rust unreachable macro in
    AnyTunnelMatcher and the unwrap of the WireGuard relay endpoint data)
    are embedded via the FatalOr result type, whose fatal constructor
    marks an aborting execution.
  - Types that the matcher uses from sibling crates of this repository
    (Constraint, TransportPort, the endpoint types, IP addresses) are
    modelled from the specification, as marked on each definition.
-/

namespace Mullvad

/-- Modelled from the spec: Constraint over a value type, either
unconstrained or pinned to exactly one value (relay_constraints is not
among the provided sources). -/
inductive Constraint (α : Type) where
  | any : Constraint α
  | only : α → Constraint α
  deriving DecidableEq

/-- Modelled from the spec: transport protocol of an endpoint. -/
inductive TransportProtocol where
  | udp : TransportProtocol
  | tcp : TransportProtocol
  deriving DecidableEq

/-- Modelled from the spec: IP address family selector. -/
inductive IpVersion where
  | v4 : IpVersion
  | v6 : IpVersion
  deriving DecidableEq

/-- Modelled from the spec: tunnel protocol, WireGuard or OpenVPN. -/
inductive TunnelType where
  | openvpn : TunnelType
  | wireguard : TunnelType
  deriving DecidableEq

/-- IPv4 address, abstracted to its 32-bit value. -/
abbrev Ipv4Addr := Nat

/-- IPv6 address, abstracted to its 128-bit value. -/
abbrev Ipv6Addr := Nat

/-- Modelled from the spec: an IP address of either family. -/
inductive IpAddr where
  | v4 : Ipv4Addr → IpAddr
  | v6 : Ipv6Addr → IpAddr
  deriving DecidableEq

/-- Modelled from the spec: hierarchical location of a relay
(country/city); the floating point coordinates are omitted, they are
never read by the matcher. -/
structure Location where
  country : String
  city : String
  deriving DecidableEq

/-- Per-relay WireGuard endpoint data: the public key of the relay peer
(the key itself is abstracted to a Nat token). -/
structure WireguardRelayEndpointData where
  public_key : Nat
  deriving DecidableEq

/-- The mutually exclusive endpoint data variant of a relay
(relay_list.rs): Openvpn, Bridge, or Wireguard with per-relay data. -/
inductive RelayEndpointData where
  | openvpn : RelayEndpointData
  | bridge : RelayEndpointData
  | wireguard : WireguardRelayEndpointData → RelayEndpointData
  deriving DecidableEq

/-- True iff the endpoint data variant is Openvpn. -/
def RelayEndpointData.is_openvpn : RelayEndpointData → Bool
  | RelayEndpointData.openvpn => true
  | _ => false

/-- True iff the endpoint data variant is Wireguard. -/
def RelayEndpointData.is_wireguard : RelayEndpointData → Bool
  | RelayEndpointData.wireguard _ => true
  | _ => false

/-- A relay record (relay_list.rs). -/
structure Relay where
  hostname : String
  ipv4_addr_in : Ipv4Addr
  ipv6_addr_in : Option Ipv6Addr
  include_in_country : Bool
  active : Bool
  owned : Bool
  provider : String
  weight : Nat
  endpoint_data : RelayEndpointData
  location : Option Location
  deriving DecidableEq

/-- One catalog-wide OpenVPN (port, protocol) pair (relay_list.rs). -/
structure OpenVpnEndpoint where
  port : Nat
  protocol : TransportProtocol
  deriving DecidableEq

/-- Catalog-wide OpenVPN endpoint data (relay_list.rs). -/
structure OpenVpnEndpointData where
  ports : List OpenVpnEndpoint
  deriving DecidableEq

/-- Catalog-wide WireGuard endpoint data: inclusive port ranges and the
tunnel gateway addresses (relay_list.rs). -/
structure WireguardEndpointData where
  port_ranges : List (Nat × Nat)
  ipv4_gateway : Ipv4Addr
  ipv6_gateway : Ipv6Addr
  deriving DecidableEq

/-- Modelled from the spec: a transport port constraint bundling an exact
protocol with a port that is unconstrained or exact. -/
structure TransportPort where
  protocol : TransportProtocol
  port : Constraint Nat
  deriving DecidableEq

/-- Modelled from the spec: OpenVPN-specific constraints. -/
structure OpenVpnConstraints where
  port : Constraint TransportPort
  deriving DecidableEq

/-- Modelled from the spec: WireGuard-specific constraints. -/
structure WireguardConstraints where
  port : Constraint Nat
  ip_version : Constraint IpVersion
  deriving DecidableEq

/-- Modelled from the spec: a plain endpoint, address plus port plus
transport protocol (talpid-types is not among the provided sources). -/
structure Endpoint where
  address : IpAddr
  port : Nat
  protocol : TransportProtocol
  deriving DecidableEq

/-- Modelled from the spec: socket address, IP address plus port. -/
structure SocketAddr where
  ip : IpAddr
  port : Nat
  deriving DecidableEq

/-- Modelled from the spec: the allow-all-traffic route set used for the
allowed IPs of a WireGuard peer. -/
def all_of_the_internet : List String := ["0.0.0.0/0", "::/0"]

/-- Modelled from the spec: WireGuard peer configuration, public key,
socket address, allowed IPs and optional pre-shared key. -/
structure PeerConfig where
  public_key : Nat
  endpoint : SocketAddr
  allowed_ips : List String
  psk : Option Nat
  deriving DecidableEq

/-- Modelled from the spec: a fully resolved WireGuard endpoint, entry
peer, optional exit peer and the catalog gateway addresses. -/
structure MullvadWireguardEndpoint where
  peer : PeerConfig
  exit_peer : Option PeerConfig
  ipv4_gateway : Ipv4Addr
  ipv6_gateway : Ipv6Addr
  deriving DecidableEq

/-- Modelled from the spec: the protocol-tagged resolved endpoint. -/
inductive MullvadEndpoint where
  | openVpn : Endpoint → MullvadEndpoint
  | wireguard : MullvadWireguardEndpoint → MullvadEndpoint
  deriving DecidableEq

/-- Result of a computation that may hit a fatal aborting branch in the
source (the Rust unreachable macro, an unwrap on the wrong variant, or an
arithmetic overflow abort): either the computed value or a marker that
execution aborts. -/
inductive FatalOr (α : Type) where
  | fatal : FatalOr α
  | ok : α → FatalOr α
  deriving DecidableEq

/-- True iff the constraint is the unconstrained variant. -/
def Constraint.is_any {α : Type} : Constraint α → Bool
  | Constraint.any => true
  | Constraint.only _ => false

/-- Modelled from the spec: constraint matching against a relay.  The
unconstrained variant always succeeds; the pinned variant succeeds per a
value-specific predicate that is supplied externally for the types this
core does not own (location, provider set, ownership). -/
def Constraint.matches {α : Type} (c : Constraint α) (pred : α → Relay → Bool)
    (relay : Relay) : Bool :=
  match c with
  | Constraint.any => true
  | Constraint.only v => pred v relay

/-- OpenVpnMatcher (matcher.rs): OpenVPN constraints plus the catalog-wide
OpenVPN endpoint data. -/
structure OpenVpnMatcher where
  constraints : OpenVpnConstraints
  data : OpenVpnEndpointData
  deriving DecidableEq

/-- WireguardMatcher (matcher.rs): optional already-chosen peer relay, the
port and IP version constraints, and the catalog-wide data. -/
structure WireguardMatcher where
  peer : Option Relay
  port : Constraint Nat
  ip_version : Constraint IpVersion
  data : WireguardEndpointData
  deriving DecidableEq

/-- AnyTunnelMatcher (matcher.rs): both protocol matchers plus the tunnel
protocol constraint. -/
structure AnyTunnelMatcher where
  wireguard : WireguardMatcher
  openvpn : OpenVpnMatcher
  tunnel_type : Constraint TunnelType
  deriving DecidableEq

/-- RelayMatcher (matcher.rs): the facade, generic over the tunnel
strategy T.  The payload types of the location, providers and ownership
constraints live outside the provided sources, so they are type
parameters here; their external match predicates are passed to the
operations below. -/
structure RelayMatcher (T L P O : Type) where
  location : Constraint L
  providers : Constraint P
  ownership : Constraint O
  tunnel : T

/-- OpenVpnMatcher filter_matching_endpoints (matcher.rs line 88): the
relay qualifies iff its endpoint data variant is Openvpn; on success the
relay is returned as a clone of the input. -/
def OpenVpnMatcher.filter_matching_endpoints (_self : OpenVpnMatcher)
    (relay : Relay) : Option Relay :=
  if !relay.endpoint_data.is_openvpn then none
  else some relay

/-- OpenVpnMatcher mullvad_endpoint (matcher.rs line 96): always a plain
OpenVPN endpoint at the IPv4 ingress address of the relay with the fixed
pair port 53 / UDP (the source marks the selection with a FIXME). -/
def OpenVpnMatcher.mullvad_endpoint (_self : OpenVpnMatcher)
    (relay : Relay) : Option MullvadEndpoint :=
  some (MullvadEndpoint.openVpn
    ⟨IpAddr.v4 relay.ipv4_addr_in, 53, TransportProtocol.udp⟩)

/-- OpenVpnMatcher matches (matcher.rs line 120): the constraint-level
predicate over the catalog-wide OpenVPN endpoint data. -/
def OpenVpnMatcher.matches (self : OpenVpnMatcher)
    (endpoint : OpenVpnEndpointData) : Bool :=
  match self.constraints.port with
  | Constraint.any => true
  | Constraint.only transport_port =>
    endpoint.ports.any fun e =>
      transport_port.protocol == e.protocol &&
        (transport_port.port.is_any ||
          transport_port.port == Constraint.only e.port)

/-- WireguardMatcher filter_matching_endpoints (matcher.rs line 278):
reject when the hostname of the relay equals the hostname of the already
chosen peer; reject when the endpoint data variant is not Wireguard;
otherwise pass the relay through as a clone. -/
def WireguardMatcher.filter_matching_endpoints (self : WireguardMatcher)
    (relay : Relay) : Option Relay :=
  if (self.peer.map fun peer_relay =>
      peer_relay.hostname == relay.hostname).getD false then none
  else if !relay.endpoint_data.is_wireguard then none
  else some relay

/-- WireguardMatcher get_address_for_wireguard_relay (matcher.rs
line 232): the IPv4 ingress address unless the IP version constraint pins
V6, in which case the optional IPv6 ingress address. -/
def WireguardMatcher.get_address_for_wireguard_relay
    (self : WireguardMatcher) (relay : Relay) : Option IpAddr :=
  match self.ip_version with
  | Constraint.any => some (IpAddr.v4 relay.ipv4_addr_in)
  | Constraint.only IpVersion.v4 => some (IpAddr.v4 relay.ipv4_addr_in)
  | Constraint.only IpVersion.v6 => relay.ipv6_addr_in.map IpAddr.v6

/-- Reduction modulo 2^16, the u16 value range. -/
def u16wrap (n : Nat) : Nat := n % 65536

/-- Wrapping u16 addition. -/
def u16add (a b : Nat) : Nat := (a + b) % 65536

/-- Wrapping u16 subtraction (two's complement), for b in u16 range. -/
def u16sub (a b : Nat) : Nat := (a + 65536 - b % 65536) % 65536

/-- The range-size closure of get_port_for_wireguard_relay (matcher.rs
line 242) under wrapping (release build) semantics: the source computes
(1 + high - low) entirely in u16 and only then widens to u64. -/
def get_port_amount (range : Nat × Nat) : Nat :=
  u16sub (u16add 1 range.2) range.1

/-- The same range-size closure under overflow-checked (debug build)
semantics: none marks the aborting overflow of 1 + high in u16, or an
aborting subtraction underflow. -/
def get_port_amount_checked (range : Nat × Nat) : Option Nat :=
  if 65536 ≤ 1 + range.2 then none
  else if 1 + range.2 < range.1 then none
  else some (1 + range.2 - range.1)

/-- The range walk of the for loop in get_port_for_wireguard_relay
(matcher.rs line 252): subtract each range size while the remaining index
is at least that size; the first range where it falls below yields
low + index, computed as u16 addition after truncating the u64 index. -/
def wireguard_port_walk (port_index : Nat) :
    List (Nat × Nat) → Option Nat
  | [] => none
  | range :: rest =>
    let ports_in_range := get_port_amount range
    if port_index < ports_in_range then
      some (u16add (u16wrap port_index) range.1)
    else
      wireguard_port_walk (port_index - ports_in_range) rest

/-- WireguardMatcher get_port_for_wireguard_relay (matcher.rs line 239).
The random draw gen_range(0, port_amount) is embedded by taking the drawn
index as the explicit parameter port_index; the source draws it in the
interval from 0 inclusive to port_amount exclusive. -/
def WireguardMatcher.get_port_for_wireguard_relay (self : WireguardMatcher)
    (data : WireguardEndpointData) (port_index : Nat) : Option Nat :=
  match self.port with
  | Constraint.any =>
    let port_amount := (data.port_ranges.map get_port_amount).sum
    if port_amount < 1 then none
    else wireguard_port_walk port_index data.port_ranges
  | Constraint.only port =>
    if data.port_ranges.any fun range =>
        decide (range.1 ≤ port) && decide (port ≤ range.2) then
      some port
    else none

/-- The unwrap_wireguard_ref accessor used by wg_data_to_endpoint: the
per-relay WireGuard data, aborting on any other variant. -/
def RelayEndpointData.unwrap_wireguard_ref :
    RelayEndpointData → FatalOr WireguardRelayEndpointData
  | RelayEndpointData.wireguard d => FatalOr.ok d
  | _ => FatalOr.fatal

/-- WireguardMatcher wg_data_to_endpoint (matcher.rs line 211): resolve
the address, then the port, then build the peer configuration from the
public key of the relay (aborting if the endpoint data variant is not
Wireguard) and wrap it with the catalog gateways and no exit peer. -/
def WireguardMatcher.wg_data_to_endpoint (self : WireguardMatcher)
    (relay : Relay) (data : WireguardEndpointData) (port_index : Nat) :
    FatalOr (Option MullvadEndpoint) :=
  match self.get_address_for_wireguard_relay relay with
  | none => FatalOr.ok none
  | some host =>
    match self.get_port_for_wireguard_relay data port_index with
    | none => FatalOr.ok none
    | some port =>
      match relay.endpoint_data.unwrap_wireguard_ref with
      | FatalOr.fatal => FatalOr.fatal
      | FatalOr.ok wg_relay_data =>
        FatalOr.ok (some (MullvadEndpoint.wireguard
          ⟨⟨wg_relay_data.public_key, ⟨host, port⟩,
            all_of_the_internet, none⟩,
           none, data.ipv4_gateway, data.ipv6_gateway⟩))

/-- WireguardMatcher mullvad_endpoint (matcher.rs line 293): delegate to
wg_data_to_endpoint with the catalog-wide data of the matcher. -/
def WireguardMatcher.mullvad_endpoint (self : WireguardMatcher)
    (relay : Relay) (port_index : Nat) : FatalOr (Option MullvadEndpoint) :=
  self.wg_data_to_endpoint relay self.data port_index

/-- AnyTunnelMatcher filter_matching_endpoints (matcher.rs line 147):
when the tunnel protocol is pinned, delegate to that matcher; when
unconstrained, run both matchers, return the unique result, abort on the
double-success invariant violation, and return none when neither
succeeds. -/
def AnyTunnelMatcher.filter_matching_endpoints (self : AnyTunnelMatcher)
    (relay : Relay) : FatalOr (Option Relay) :=
  match self.tunnel_type with
  | Constraint.any =>
    let wireguard_relay := self.wireguard.filter_matching_endpoints relay
    let openvpn_relay := self.openvpn.filter_matching_endpoints relay
    match wireguard_relay, openvpn_relay with
    | some r, none => FatalOr.ok (some r)
    | none, some r => FatalOr.ok (some r)
    | some _, some _ => FatalOr.fatal
    | none, none => FatalOr.ok none
  | Constraint.only TunnelType.openvpn =>
    FatalOr.ok (self.openvpn.filter_matching_endpoints relay)
  | Constraint.only TunnelType.wireguard =>
    FatalOr.ok (self.wireguard.filter_matching_endpoints relay)

/-- AnyTunnelMatcher mullvad_endpoint (matcher.rs line 168), in the
non-Android configuration: when unconstrained, prefer the OpenVPN
endpoint and fall back to the WireGuard endpoint; when pinned, use that
matcher directly. -/
def AnyTunnelMatcher.mullvad_endpoint (self : AnyTunnelMatcher)
    (relay : Relay) (port_index : Nat) : FatalOr (Option MullvadEndpoint) :=
  match self.tunnel_type with
  | Constraint.any =>
    match self.openvpn.mullvad_endpoint relay with
    | some e => FatalOr.ok (some e)
    | none => self.wireguard.mullvad_endpoint relay port_index
  | Constraint.only TunnelType.openvpn =>
    FatalOr.ok (self.openvpn.mullvad_endpoint relay)
  | Constraint.only TunnelType.wireguard =>
    self.wireguard.mullvad_endpoint relay port_index

/-- RelayMatcher filter_matching_relay (matcher.rs line 58): reject when
the location, providers or ownership constraint fails its external match
predicate; otherwise delegate to filter_matching_endpoints of the tunnel
strategy, given here as the function tFilter. -/
def RelayMatcher.filter_matching_relay {T L P O : Type}
    (lPred : L → Relay → Bool) (pPred : P → Relay → Bool)
    (oPred : O → Relay → Bool)
    (tFilter : T → Relay → FatalOr (Option Relay))
    (self : RelayMatcher T L P O) (relay : Relay) :
    FatalOr (Option Relay) :=
  if !self.location.matches lPred relay
      || !self.providers.matches pPred relay
      || !self.ownership.matches oPred relay then
    FatalOr.ok none
  else
    tFilter self.tunnel relay

/-! ## Example values used by witnesses -/

/-- A concrete WireGuard relay. -/
def exampleRelay : Relay :=
  ⟨"se1-wireguard", 0x01020304, some 0xfd, true, true, true, "provider0",
    100, RelayEndpointData.wireguard ⟨7⟩, none⟩

/-- A concrete OpenVPN relay. -/
def exampleOpenvpnRelay : Relay :=
  ⟨"se2-openvpn", 0x05060708, none, true, true, true, "provider1", 50,
    RelayEndpointData.openvpn, none⟩

/-- A concrete combinator matcher with unconstrained tunnel protocol. -/
def exampleAnyMatcher : AnyTunnelMatcher :=
  ⟨⟨none, Constraint.any, Constraint.any, ⟨[(53, 53)], 0, 0⟩⟩,
   ⟨⟨Constraint.any⟩, ⟨[]⟩⟩, Constraint.any⟩

/-! ## Helper lemmas -/

/-- A successful OpenVPN filter forces the Openvpn variant and returns
the input relay. -/
theorem openvpn_filter_eq_some {m : OpenVpnMatcher} {relay r : Relay}
    (h : m.filter_matching_endpoints relay = some r) :
    relay.endpoint_data.is_openvpn = true ∧ r = relay := by
  unfold OpenVpnMatcher.filter_matching_endpoints at h
  cases hb : relay.endpoint_data.is_openvpn <;> rw [hb] at h <;>
    simp at h
  exact ⟨rfl, h.symm⟩

/-- A successful WireGuard filter forces the Wireguard variant and
returns the input relay. -/
theorem wireguard_filter_eq_some {m : WireguardMatcher} {relay r : Relay}
    (h : m.filter_matching_endpoints relay = some r) :
    relay.endpoint_data.is_wireguard = true ∧ r = relay := by
  unfold WireguardMatcher.filter_matching_endpoints at h
  by_cases hp : ((m.peer.map fun peer_relay =>
      peer_relay.hostname == relay.hostname).getD false) = true
  · simp only [hp, if_true] at h
    cases h
  · simp only [hp, if_false, Bool.false_eq_true] at h
    cases hb : relay.endpoint_data.is_wireguard <;> rw [hb] at h <;>
      simp at h
    exact ⟨rfl, h.symm⟩

/-- The endpoint data variant of a relay is exclusive: it cannot be both
Wireguard and Openvpn. -/
theorem endpoint_data_exclusive (e : RelayEndpointData) :
    ¬(e.is_wireguard = true ∧ e.is_openvpn = true) := by
  cases e <;>
    simp [RelayEndpointData.is_wireguard, RelayEndpointData.is_openvpn]

/-! ## Claims -/

/-- C1: filter_matching_relay returns none whenever the location,
providers or ownership constraint fails its match predicate against the
relay; when all three pass, the result equals filter_matching_endpoints
of the tunnel strategy applied to the same relay. -/
theorem c1_filter_matching_relay {T L P O : Type}
    (lPred : L → Relay → Bool) (pPred : P → Relay → Bool)
    (oPred : O → Relay → Bool)
    (tFilter : T → Relay → FatalOr (Option Relay))
    (m : RelayMatcher T L P O) (relay : Relay) :
    ((m.location.matches lPred relay = false ∨
        m.providers.matches pPred relay = false ∨
        m.ownership.matches oPred relay = false) →
      RelayMatcher.filter_matching_relay lPred pPred oPred tFilter m relay
        = FatalOr.ok none) ∧
    (m.location.matches lPred relay = true →
      m.providers.matches pPred relay = true →
      m.ownership.matches oPred relay = true →
      RelayMatcher.filter_matching_relay lPred pPred oPred tFilter m relay
        = tFilter m.tunnel relay) := by
  constructor
  · rintro (h | h | h) <;>
      simp [RelayMatcher.filter_matching_relay, h]
  · intro h1 h2 h3
    simp [RelayMatcher.filter_matching_relay, h1, h2, h3]

/-- Witness for C1: a failing location constraint yields none. -/
theorem c1_filter_matching_relay_witness :
    @RelayMatcher.filter_matching_relay Unit Unit Unit Unit
      (fun _ _ => false) (fun _ _ => true) (fun _ _ => true)
      (fun _ _ => FatalOr.ok none)
      ⟨Constraint.only (), Constraint.any, Constraint.any, ()⟩
      exampleRelay = FatalOr.ok none :=
  (c1_filter_matching_relay (fun _ _ => false) (fun _ _ => true)
      (fun _ _ => true) (fun _ _ => FatalOr.ok none)
      ⟨Constraint.only (), Constraint.any, Constraint.any, ()⟩
      exampleRelay).1 (Or.inl rfl)

/-- C2: with unconstrained tunnel protocol the combinator never reaches
the fatal invariant-violation branch, both sub-matchers can never succeed
on the same relay, the unique successful sub-matcher result is returned,
and none is returned when neither succeeds. -/
theorem c2_any_tunnel_exclusive (m : AnyTunnelMatcher) (relay : Relay)
    (h : m.tunnel_type = Constraint.any) :
    m.filter_matching_endpoints relay ≠ FatalOr.fatal ∧
    ¬(m.wireguard.filter_matching_endpoints relay ≠ none ∧
        m.openvpn.filter_matching_endpoints relay ≠ none) ∧
    (∀ r, m.wireguard.filter_matching_endpoints relay = some r →
        m.filter_matching_endpoints relay = FatalOr.ok (some r)) ∧
    (∀ r, m.openvpn.filter_matching_endpoints relay = some r →
        m.filter_matching_endpoints relay = FatalOr.ok (some r)) ∧
    (m.wireguard.filter_matching_endpoints relay = none →
        m.openvpn.filter_matching_endpoints relay = none →
        m.filter_matching_endpoints relay = FatalOr.ok none) := by
  have hexcl : ¬(m.wireguard.filter_matching_endpoints relay ≠ none ∧
      m.openvpn.filter_matching_endpoints relay ≠ none) := by
    rintro ⟨hw, ho⟩
    rcases Option.ne_none_iff_exists.mp hw with ⟨rw', hrw⟩
    rcases Option.ne_none_iff_exists.mp ho with ⟨ro, hro⟩
    have h1 := wireguard_filter_eq_some hrw.symm
    have h2 := openvpn_filter_eq_some hro.symm
    exact endpoint_data_exclusive relay.endpoint_data ⟨h1.1, h2.1⟩
  have hdef : m.filter_matching_endpoints relay =
      match m.wireguard.filter_matching_endpoints relay,
            m.openvpn.filter_matching_endpoints relay with
      | some r, none => FatalOr.ok (some r)
      | none, some r => FatalOr.ok (some r)
      | some _, some _ => FatalOr.fatal
      | none, none => FatalOr.ok none := by
    unfold AnyTunnelMatcher.filter_matching_endpoints
    rw [h]
  refine ⟨?_, hexcl, ?_, ?_, ?_⟩
  · rw [hdef]
    cases hw : m.wireguard.filter_matching_endpoints relay <;>
      cases ho : m.openvpn.filter_matching_endpoints relay <;> simp
    exact absurd ⟨by simp [hw], by simp [ho]⟩ hexcl
  · intro r hr
    rw [hdef, hr]
    cases ho : m.openvpn.filter_matching_endpoints relay
    · rfl
    · exact absurd ⟨by simp [hr], by simp [ho]⟩ hexcl
  · intro r hr
    rw [hdef, hr]
    cases hw : m.wireguard.filter_matching_endpoints relay
    · rfl
    · exact absurd ⟨by simp [hw], by simp [hr]⟩ hexcl
  · intro h1 h2
    rw [hdef, h1, h2]

/-- Witness for C2: the concrete combinator never aborts on the concrete
WireGuard relay. -/
theorem c2_any_tunnel_exclusive_witness :
    exampleAnyMatcher.filter_matching_endpoints exampleRelay
      ≠ FatalOr.fatal :=
  (c2_any_tunnel_exclusive exampleAnyMatcher exampleRelay rfl).1

/-- C3 (failing input): on the well-formed full port range (0, 65535)
with unconstrained port, the u16 range-size computation wraps 1 + 65535
to 0, the computed total is 0, and port selection returns none, although
the spec-level total number of ports in the ranges is 65536, so the claim
that a nonzero-total walk yields a port inside a range fails on the code
at this input. -/
theorem c3_port_selection_full_range_broken :
    WireguardMatcher.get_port_for_wireguard_relay
        ⟨none, Constraint.any, Constraint.any, ⟨[(0, 65535)], 0, 0⟩⟩
        ⟨[(0, 65535)], 0, 0⟩ 0 = none ∧
    (([(0, 65535)] : List (Nat × Nat)).map
        fun range => range.2 - range.1 + 1).sum = 65536 := by
  exact ⟨rfl, rfl⟩

/-- C4: with port constraint pinned to p, WireGuard port selection
returns some p iff p falls within at least one inclusive range, and none
otherwise. -/
theorem c4_port_only (m : WireguardMatcher) (data : WireguardEndpointData)
    (p idx : Nat) (h : m.port = Constraint.only p) :
    (m.get_port_for_wireguard_relay data idx = some p ↔
      ∃ range ∈ data.port_ranges, range.1 ≤ p ∧ p ≤ range.2) ∧
    ((¬∃ range ∈ data.port_ranges, range.1 ≤ p ∧ p ≤ range.2) →
      m.get_port_for_wireguard_relay data idx = none) := by
  have hdef : m.get_port_for_wireguard_relay data idx =
      if data.port_ranges.any fun range =>
          decide (range.1 ≤ p) && decide (p ≤ range.2) then some p
      else none := by
    unfold WireguardMatcher.get_port_for_wireguard_relay
    rw [h]
  rw [hdef]
  by_cases hc : (data.port_ranges.any fun range =>
      decide (range.1 ≤ p) && decide (p ≤ range.2)) = true
  · have hex : ∃ range ∈ data.port_ranges, range.1 ≤ p ∧ p ≤ range.2 := by
      rcases List.any_eq_true.mp hc with ⟨range, hmem, hpred⟩
      exact ⟨range, hmem, by simpa using hpred⟩
    simp [hc, hex]
  · rw [Bool.not_eq_true] at hc
    have hnex : ¬∃ range ∈ data.port_ranges, range.1 ≤ p ∧ p ≤ range.2 := by
      rintro ⟨range, hmem, h1, h2⟩
      have : (data.port_ranges.any fun range =>
          decide (range.1 ≤ p) && decide (p ≤ range.2)) = true :=
        List.any_eq_true.mpr ⟨range, hmem, by simp [h1, h2]⟩
      rw [hc] at this
      cases this
    simp [hc, hnex]

/-- Witness for C4: with ranges [(10, 20)] and port pinned to 15,
selection returns 15. -/
theorem c4_port_only_witness :
    WireguardMatcher.get_port_for_wireguard_relay
        ⟨none, Constraint.only 15, Constraint.any, ⟨[(10, 20)], 0, 0⟩⟩
        ⟨[(10, 20)], 0, 0⟩ 0 = some 15 :=
  (c4_port_only
      ⟨none, Constraint.only 15, Constraint.any, ⟨[(10, 20)], 0, 0⟩⟩
      ⟨[(10, 20)], 0, 0⟩ 15 0 rfl).1.mpr
    ⟨(10, 20), by simp, by decide⟩

/-- C5 (failing input): with a catalog holding only the pair (1194, TCP)
and the transport-port constraint pinned to TCP port 1194, the OpenVPN
endpoint construction still returns the fixed pair port 53 / UDP, a pair
that is not in the catalog-wide OpenVPN endpoint data and does not
satisfy the transport-port constraint of the matcher, so the claim fails
on the code at this input. -/
theorem c5_openvpn_endpoint_is_fixed :
    OpenVpnMatcher.mullvad_endpoint
        ⟨⟨Constraint.only ⟨TransportProtocol.tcp, Constraint.only 1194⟩⟩,
         ⟨[⟨1194, TransportProtocol.tcp⟩]⟩⟩
        exampleOpenvpnRelay
      = some (MullvadEndpoint.openVpn
          ⟨IpAddr.v4 exampleOpenvpnRelay.ipv4_addr_in, 53,
            TransportProtocol.udp⟩) ∧
    (⟨53, TransportProtocol.udp⟩ : OpenVpnEndpoint)
      ∉ (⟨[⟨1194, TransportProtocol.tcp⟩]⟩ : OpenVpnEndpointData).ports ∧
    OpenVpnMatcher.matches
        ⟨⟨Constraint.only ⟨TransportProtocol.tcp, Constraint.only 1194⟩⟩,
         ⟨[⟨1194, TransportProtocol.tcp⟩]⟩⟩
        ⟨[⟨53, TransportProtocol.udp⟩]⟩ = false := by
  exact ⟨rfl, by decide, rfl⟩

/-- A successful combinator filter returns the input relay. -/
theorem any_filter_eq_ok_some {m : AnyTunnelMatcher} {relay r : Relay}
    (h : m.filter_matching_endpoints relay = FatalOr.ok (some r)) :
    r = relay := by
  cases ht : m.tunnel_type with
  | any =>
    have hdef : m.filter_matching_endpoints relay =
        match m.wireguard.filter_matching_endpoints relay,
              m.openvpn.filter_matching_endpoints relay with
        | some rr, none => FatalOr.ok (some rr)
        | none, some rr => FatalOr.ok (some rr)
        | some _, some _ => FatalOr.fatal
        | none, none => FatalOr.ok none := by
      unfold AnyTunnelMatcher.filter_matching_endpoints
      rw [ht]
    rw [hdef] at h
    cases hw : m.wireguard.filter_matching_endpoints relay <;>
      cases ho : m.openvpn.filter_matching_endpoints relay <;>
        rw [hw, ho] at h
    · cases h
    · simp only [FatalOr.ok.injEq, Option.some.injEq] at h
      rw [← h]
      exact (openvpn_filter_eq_some ho).2
    · simp only [FatalOr.ok.injEq, Option.some.injEq] at h
      rw [← h]
      exact (wireguard_filter_eq_some hw).2
    · cases h
  | only tt =>
    cases tt with
    | openvpn =>
      have hdef : m.filter_matching_endpoints relay =
          FatalOr.ok (m.openvpn.filter_matching_endpoints relay) := by
        unfold AnyTunnelMatcher.filter_matching_endpoints
        rw [ht]
      rw [hdef] at h
      simp only [FatalOr.ok.injEq] at h
      exact (openvpn_filter_eq_some h).2
    | wireguard =>
      have hdef : m.filter_matching_endpoints relay =
          FatalOr.ok (m.wireguard.filter_matching_endpoints relay) := by
        unfold AnyTunnelMatcher.filter_matching_endpoints
        rw [ht]
      rw [hdef] at h
      simp only [FatalOr.ok.injEq] at h
      exact (wireguard_filter_eq_some h).2

/-- C6: with an already chosen peer, the WireGuard filter rejects any
relay with the same hostname as the peer, and on any relay with a
different hostname behaves exactly like the matcher without a peer: none
unless the endpoint data variant is Wireguard, otherwise the relay
unchanged. -/
theorem c6_multihop_exclusion (m : WireguardMatcher) (peerR relay : Relay)
    (h : m.peer = some peerR) :
    (peerR.hostname = relay.hostname →
      m.filter_matching_endpoints relay = none) ∧
    (peerR.hostname ≠ relay.hostname →
      m.filter_matching_endpoints relay
        = WireguardMatcher.filter_matching_endpoints
            ⟨none, m.port, m.ip_version, m.data⟩ relay ∧
      m.filter_matching_endpoints relay
        = if relay.endpoint_data.is_wireguard then some relay else none) := by
  constructor
  · intro heq
    simp [WireguardMatcher.filter_matching_endpoints, h, heq]
  · intro hne
    constructor
    · simp [WireguardMatcher.filter_matching_endpoints, h, hne]
    · cases hb : relay.endpoint_data.is_wireguard <;>
        simp [WireguardMatcher.filter_matching_endpoints, h, hne, hb]

/-- Witness for C6: a matcher whose peer is the concrete WireGuard relay
rejects that same relay. -/
theorem c6_multihop_exclusion_witness :
    WireguardMatcher.filter_matching_endpoints
        ⟨some exampleRelay, Constraint.any, Constraint.any,
          ⟨[(53, 53)], 0, 0⟩⟩
        exampleRelay = none :=
  (c6_multihop_exclusion
      ⟨some exampleRelay, Constraint.any, Constraint.any,
        ⟨[(53, 53)], 0, 0⟩⟩
      exampleRelay exampleRelay rfl).1 rfl

/-- C7: address resolution yields the IPv4 ingress address under an
unconstrained or V4 IP version constraint; under V6 it yields the IPv6
ingress address when present, and when the relay has none it yields none
and the whole endpoint construction returns none. -/
theorem c7_ip_version_resolution (m : WireguardMatcher) (relay : Relay)
    (idx : Nat) :
    ((m.ip_version = Constraint.any ∨
        m.ip_version = Constraint.only IpVersion.v4) →
      m.get_address_for_wireguard_relay relay
        = some (IpAddr.v4 relay.ipv4_addr_in)) ∧
    (m.ip_version = Constraint.only IpVersion.v6 →
      (∀ a, relay.ipv6_addr_in = some a →
        m.get_address_for_wireguard_relay relay = some (IpAddr.v6 a)) ∧
      (relay.ipv6_addr_in = none →
        m.get_address_for_wireguard_relay relay = none ∧
        m.mullvad_endpoint relay idx = FatalOr.ok none)) := by
  constructor
  · rintro (h | h) <;>
      simp [WireguardMatcher.get_address_for_wireguard_relay, h]
  · intro h
    constructor
    · intro a ha
      simp [WireguardMatcher.get_address_for_wireguard_relay, h, ha]
    · intro hn
      have haddr : m.get_address_for_wireguard_relay relay = none := by
        simp [WireguardMatcher.get_address_for_wireguard_relay, h, hn]
      refine ⟨haddr, ?_⟩
      unfold WireguardMatcher.mullvad_endpoint
        WireguardMatcher.wg_data_to_endpoint
      rw [haddr]

/-- Witness for C7: under a V6 constraint a relay with no IPv6 address
yields none from endpoint construction. -/
theorem c7_ip_version_resolution_witness :
    WireguardMatcher.mullvad_endpoint
        ⟨none, Constraint.any, Constraint.only IpVersion.v6,
          ⟨[(53, 53)], 0, 0⟩⟩
        exampleOpenvpnRelay 0 = FatalOr.ok none :=
  (((c7_ip_version_resolution
      ⟨none, Constraint.any, Constraint.only IpVersion.v6,
        ⟨[(53, 53)], 0, 0⟩⟩
      exampleOpenvpnRelay 0).2 rfl).2 rfl).2

/-- C8: filtering is a pure function of its inputs in this embedding,
and whenever any filtering operation succeeds it returns a relay value
equal to the input relay in every field: this holds for the OpenVPN and
WireGuard strategies, for the combinator, and for the facade whenever its
strategy has this property. -/
theorem c8_filter_returns_input_unchanged {T L P O : Type}
    (lPred : L → Relay → Bool) (pPred : P → Relay → Bool)
    (oPred : O → Relay → Bool)
    (tFilter : T → Relay → FatalOr (Option Relay))
    (om : OpenVpnMatcher) (wm : WireguardMatcher) (am : AnyTunnelMatcher)
    (fm : RelayMatcher T L P O) (relay r : Relay) :
    (om.filter_matching_endpoints relay = some r → r = relay) ∧
    (wm.filter_matching_endpoints relay = some r → r = relay) ∧
    (am.filter_matching_endpoints relay = FatalOr.ok (some r) →
      r = relay) ∧
    ((∀ t rel r', tFilter t rel = FatalOr.ok (some r') → r' = rel) →
      RelayMatcher.filter_matching_relay lPred pPred oPred tFilter fm relay
          = FatalOr.ok (some r) →
      r = relay) := by
  refine ⟨fun h => (openvpn_filter_eq_some h).2,
    fun h => (wireguard_filter_eq_some h).2,
    fun h => any_filter_eq_ok_some h, ?_⟩
  intro hstrat h
  unfold RelayMatcher.filter_matching_relay at h
  by_cases hc : (!fm.location.matches lPred relay
      || !fm.providers.matches pPred relay
      || !fm.ownership.matches oPred relay) = true
  · simp [hc] at h
  · rw [Bool.not_eq_true] at hc
    simp [hc] at h
    exact hstrat _ _ _ h

/-- Witness for C8: the OpenVPN strategy returns the concrete OpenVPN
relay unchanged. -/
theorem c8_filter_returns_input_unchanged_witness :
    OpenVpnMatcher.filter_matching_endpoints ⟨⟨Constraint.any⟩, ⟨[]⟩⟩
        exampleOpenvpnRelay = some exampleOpenvpnRelay ∧
    exampleOpenvpnRelay = exampleOpenvpnRelay :=
  ⟨rfl,
    (@c8_filter_returns_input_unchanged Unit Unit Unit Unit
        (fun _ _ => true) (fun _ _ => true) (fun _ _ => true)
        (fun _ _ => FatalOr.ok none)
        ⟨⟨Constraint.any⟩, ⟨[]⟩⟩
        ⟨none, Constraint.any, Constraint.any, ⟨[], 0, 0⟩⟩
        exampleAnyMatcher
        ⟨Constraint.any, Constraint.any, Constraint.any, ()⟩
        exampleOpenvpnRelay exampleOpenvpnRelay).1 rfl⟩

/-- C9: the OpenVPN endpoint construction returns some for every relay
and matcher state, always the IPv4 ingress address with port 53 and UDP;
hence with unconstrained tunnel protocol the combinator endpoint equals
the OpenVPN endpoint and the WireGuard fallback is never taken. -/
theorem c9_openvpn_endpoint_always_some (om : OpenVpnMatcher)
    (am : AnyTunnelMatcher) (relay : Relay) (idx : Nat) :
    om.mullvad_endpoint relay
      = some (MullvadEndpoint.openVpn
          ⟨IpAddr.v4 relay.ipv4_addr_in, 53, TransportProtocol.udp⟩) ∧
    (am.tunnel_type = Constraint.any →
      am.mullvad_endpoint relay idx
        = FatalOr.ok (am.openvpn.mullvad_endpoint relay)) := by
  refine ⟨rfl, fun h => ?_⟩
  unfold AnyTunnelMatcher.mullvad_endpoint
  rw [h]
  simp [OpenVpnMatcher.mullvad_endpoint]

/-- Witness for C9: the concrete combinator yields exactly the OpenVPN
endpoint of its OpenVPN sub-matcher. -/
theorem c9_openvpn_endpoint_always_some_witness :
    AnyTunnelMatcher.mullvad_endpoint exampleAnyMatcher
        exampleOpenvpnRelay 0
      = FatalOr.ok (OpenVpnMatcher.mullvad_endpoint
          exampleAnyMatcher.openvpn exampleOpenvpnRelay) :=
  (c9_openvpn_endpoint_always_some exampleAnyMatcher.openvpn
      exampleAnyMatcher exampleOpenvpnRelay 0).2 rfl

/-- C10: for every well-formed range with high bound 65535 the
overflow-checked u16 range-size computation aborts (1 + 65535 does not
fit in u16), although the spec-level size fits in u64; and under wrapping
semantics the full range (0, 65535) is mis-sized to 0. -/
theorem c10_range_size_u16_overflow (low : Nat) (h : low ≤ 65535) :
    get_port_amount_checked (low, 65535) = none ∧
    65535 - low + 1 ≤ 65536 ∧
    65535 - low + 1 < 18446744073709551616 ∧
    get_port_amount (0, 65535) = 0 := by
  refine ⟨?_, by omega, by omega, rfl⟩
  unfold get_port_amount_checked
  rw [if_pos]
  show (65536 : Nat) ≤ 1 + 65535
  omega

/-- Witness for C10: the checked size computation aborts on the
well-formed range (1, 65535). -/
theorem c10_range_size_u16_overflow_witness :
    get_port_amount_checked (1, 65535) = none ∧ (1 : Nat) ≤ 65535 :=
  ⟨(c10_range_size_u16_overflow 1 (by decide)).1, by decide⟩

end Mullvad
